import Mathlib

/-!
Shallow embedding of the force-element (`Ligament.cpp`) and sampled reporter
(`Reporter.h`) core of the repository, with theorems checking the
specification's claims.  Doubles are modelled as rationals; the external
`GeometryPath` collaborator is modelled by the per-state quantities the
element reads from it (current length, pre-scale scratch length, point/force
direction decomposition).
-/

namespace OpenSimCore

/-- A 3-vector of rationals, standing for `SimTK::Vec3`. -/
structure Vec3 where
  x : ℚ
  y : ℚ
  z : ℚ
  deriving DecidableEq, Repr

/-- Scalar multiplication of a `Vec3`, standing for `force*direction`. -/
def scaleVec (c : ℚ) (v : Vec3) : Vec3 :=
  ⟨c * v.x, c * v.y, c * v.z⟩

/-- One entry of the path decomposition returned by
`GeometryPath::getPointForceDirections`: an attachment point on a body with a
unit direction (`PointForceDirection`). Bodies are identified by an index. -/
structure PointForceDirection where
  body : ℕ
  point : Vec3
  direction : Vec3
  deriving DecidableEq, Repr

/-- The per-state quantities the element reads from its `GeometryPath`
collaborator (external per the spec): `getLength(s)`, `getPreScaleLength(s)`
and the decomposition `getPointForceDirections(s)`. -/
structure PathState where
  length : ℚ
  preScaleLength : ℚ
  pfds : List PointForceDirection
  deriving DecidableEq, Repr

/-- Data of a `SimmSpline`: the control-point abscissae and ordinates handed
to its constructor.  Spline evaluation itself is external (out of scope per
the spec), so it is carried as an opaque evaluation function. -/
structure SimmSplineData where
  x : List ℚ
  y : List ℚ

/-- The `Function` objects the element uses as a force-length curve: either a
`SimmSpline` over a fixed control-point table (evaluation external), or a
`LinearFunction`.

Modelled from the spec: `LinearFunction` is repository code not under `src/`
(only its caller `setLinearStiffness` is); per the spec it is the pure-linear
convenience curve in slope/intercept form, `calcValue x = slope * x +
intercept`. -/
inductive OSimFunction where
  | simmSpline (data : SimmSplineData) (eval : ℚ → ℚ)
  | linearFunction (slope intercept : ℚ)

/-- `Function::calcValue` on a one-element vector, as used by the element. -/
def OSimFunction.calcValue : OSimFunction → ℚ → ℚ
  | .simmSpline _ ev, v => ev v
  | .linearFunction slope intercept, v => slope * v + intercept

/-- The properties of the force element (`Ligament`): resting length,
force-scale parameter (`pcsa_force`) and force-length curve.  The owned
`GeometryPath` is represented by the `PathState` passed per call. -/
structure Ligament where
  resting_length : ℚ
  pcsa_force : ℚ
  force_length_curve : OSimFunction

/-- Abscissae of the default force-length curve control points, from
`Ligament::constructProperties`. -/
def forceLengthCurveX : List ℚ :=
  [-5, 998/1000, 999/1000, 1, 11/10, 12/10, 13/10, 14/10,
   15/10, 16/10, 1601/1000, 1602/1000, 5]

/-- Ordinates of the default force-length curve control points, from
`Ligament::constructProperties`. -/
def forceLengthCurveY : List ℚ :=
  [0, 0, 0, 0, 35/1000, 12/100, 26/100, 55/100, 117/100, 2, 2, 2, 2]

/-- `Ligament::constructProperties`: the default-constructed element has
`resting_length = 0.0`, `pcsa_force = 0.0`, and a `SimmSpline` force-length
curve over the fixed 13-point table.  The spline's evaluation function is
external and passed as a parameter. -/
def Ligament.constructProperties (splineEval : ℚ → ℚ) : Ligament :=
  { resting_length := 0
    pcsa_force := 0
    force_length_curve :=
      .simmSpline ⟨forceLengthCurveX, forceLengthCurveY⟩ splineEval }

/-- `Ligament::getTension`: zero when slack, otherwise
`curve((length - restingLength)/restingLength) * pcsaForce`. -/
def Ligament.getTension (lig : Ligament) (s : PathState) : ℚ :=
  if s.length ≤ lig.resting_length then 0
  else
    lig.force_length_curve.calcValue
      ((s.length - lig.resting_length) / lig.resting_length) * lig.pcsa_force

/-- One force applied at a point on a body, as accumulated by
`applyForceToPoint` into the caller's body-force buffer. -/
structure AppliedPointForce where
  body : ℕ
  point : Vec3
  force : Vec3
  deriving DecidableEq, Repr

/-- `Force::applyForceToPoint`: records one (body, point, force) contribution
into the caller-supplied body-force accumulator. -/
def applyForceToPoint (body : ℕ) (point : Vec3) (force : Vec3)
    (bodyForces : List AppliedPointForce) : List AppliedPointForce :=
  bodyForces ++ [⟨body, point, force⟩]

/-- Result of `Ligament::computeForce`: the final contents of the two
caller-supplied mutable accumulators (the body-force buffer and the
generalized-force vector).  The state and the element itself are taken by
const reference in the source and are not part of the result. -/
structure ComputeForceResult where
  bodyForces : List AppliedPointForce
  generalizedForces : List ℚ
  deriving DecidableEq, Repr

/-- `Ligament::computeForce`: returns the accumulators unchanged when slack;
otherwise computes the strain, evaluates the curve, scales by `pcsa_force`,
and accumulates `force * direction` at each point of the path decomposition
into the body-force buffer.  The generalized-force parameter is never
written. -/
def Ligament.computeForce (lig : Ligament) (s : PathState)
    (bodyForces : List AppliedPointForce) (generalizedForces : List ℚ) :
    ComputeForceResult :=
  if s.length ≤ lig.resting_length then
    ⟨bodyForces, generalizedForces⟩
  else
    let strain := (s.length - lig.resting_length) / lig.resting_length
    let force := lig.force_length_curve.calcValue strain * lig.pcsa_force
    ⟨s.pfds.foldl
        (fun acc pfd =>
          applyForceToPoint pfd.body pfd.point (scaleVec force pfd.direction) acc)
        bodyForces,
      generalizedForces⟩

/-- `Ligament::setLinearStiffness(aStiffness, aRestLength)`: sets the curve to
`LinearFunction(aRestLength, 0)`, the resting length to `aRestLength` and the
force scale to `aStiffness`. -/
def Ligament.setLinearStiffness (lig : Ligament)
    (aStiffness aRestLength : ℚ) : Ligament :=
  { lig with
    force_length_curve := .linearFunction aRestLength 0
    resting_length := aRestLength
    pcsa_force := aStiffness }

/-- `Ligament::postScale`, after the (external) `GeometryPath::postScale` has
finalized the geometric rescale: if the recorded pre-scale length is positive,
multiply the resting length by `newLength / preScaleLength` and clear the
scratch slot; otherwise leave everything unchanged.  The input `s` is the
path state as `GeometryPath::postScale` left it. -/
def Ligament.postScale (lig : Ligament) (s : PathState) :
    Ligament × PathState :=
  if 0 < s.preScaleLength then
    ({ lig with
        resting_length := lig.resting_length * (s.length / s.preScaleLength) },
      { s with preScaleLength := 0 })
  else
    (lig, s)

/-- The observable actions `Ligament::connectToModel` can perform, in order:
registering the owned path as a sub-component, delegating to
`Super::connectToModel`, the `assert(restingLength > 0.0)` validation firing
(fatal diagnostic), and `path.setOwner(this)`. -/
inductive ConnectAction where
  | includeSubComponent
  | superConnect
  | assertFailure
  | setOwner
  deriving DecidableEq, Repr

/-- `Ligament::connectToModel` as the sequence of actions it performs:
always include the path as a sub-component and delegate to the generic
connection step; if no owning model is assigned (`_model == NULL`) return
there; otherwise validate `restingLength > 0.0` (fatal assert on failure)
and set the path's owner. -/
def Ligament.connectToModel (restingLength : ℚ) (modelAssigned : Bool) :
    List ConnectAction :=
  [.includeSubComponent, .superConnect] ++
    (if modelAssigned then
      (if 0 < restingLength then [.setOwner] else [.assertFailure])
    else [])

/-- The report interval property `report_time_iterval`, a double that may be
NaN (NaN is not a rational, so it is a separate constructor). -/
inductive ReportInterval where
  | nan
  | val (q : ℚ)

/-- Modelled from the spec: the mutable reporting state of a `Reporter`.
`Reporter::report`'s implementation is not under `src/` (only `Reporter.h`
declarations are); per the spec the disabled flag is state-scoped, the last
report time starts unset (the first candidate event is recorded), and the
table is append-only rows of (time, values). -/
structure ReporterState where
  disabled : Bool
  lastReportTime : Option ℚ
  table : List (ℚ × List ℚ)
  deriving DecidableEq, Repr

/-- Modelled from the spec: the gating decision of `Reporter::report` — record
iff `disabled` is false and (the interval is negative or NaN, the "every
step" sentinel, or at least the interval has elapsed since the last recorded
time; with no recorded time yet, record). -/
def shouldReport (interval : ReportInterval) (rs : ReporterState) (t : ℚ) :
    Bool :=
  !rs.disabled &&
    (match interval with
      | .nan => true
      | .val q =>
        decide (q < 0) ||
          (match rs.lastReportTime with
            | none => true
            | some l => decide (q ≤ t - l)))

/-- Modelled from the spec: `Reporter::report` (implementation not under
`src/`).  On a positive gating decision it appends exactly one row
`(currentTime, bound values)` and sets `lastReportTime = currentTime`;
otherwise it leaves the reporting state unchanged. -/
def Reporter.report (interval : ReportInterval) (values : List ℚ)
    (rs : ReporterState) (t : ℚ) : ReporterState :=
  if shouldReport interval rs t then
    { rs with table := rs.table ++ [(t, values)], lastReportTime := some t }
  else
    rs

/-- Feeding a sequence of candidate reporting events to the reporter. -/
def Reporter.reportTrace (interval : ReportInterval) (values : List ℚ)
    (rs : ReporterState) (ts : List ℚ) : ReporterState :=
  ts.foldl (fun st t => Reporter.report interval values st t) rs

/-- Helper: accumulating one entry per path-decomposition element with
`applyForceToPoint` appends the mapped entries to the accumulator. -/
theorem foldl_applyForceToPoint (l : List PointForceDirection)
    (f : PointForceDirection → Vec3) (acc : List AppliedPointForce) :
    l.foldl (fun a p => applyForceToPoint p.body p.point (f p) a) acc =
      acc ++ l.map (fun p => ⟨p.body, p.point, f p⟩) := by
  induction l generalizing acc with
  | nil => simp
  | cons p rest ih =>
    rw [List.foldl_cons, ih]
    simp [applyForceToPoint]

/-- Claim C1: with positive resting length, whenever the path length is at
most the resting length, `computeForce` adds no entry to the caller's
body-force accumulator and `getTension` returns exactly 0. -/
theorem C1_slack_zero_force (lig : Ligament) (s : PathState)
    (bf : List AppliedPointForce) (gf : List ℚ)
    (_hrest : 0 < lig.resting_length)
    (hslack : s.length ≤ lig.resting_length) :
    (lig.computeForce s bf gf).bodyForces = bf ∧ lig.getTension s = 0 := by
  constructor
  · simp [Ligament.computeForce, if_pos hslack]
  · simp [Ligament.getTension, if_pos hslack]

/-- Witness for C1 at a concrete slack configuration. -/
theorem C1_slack_zero_force_witness :
    0 < (1 : ℚ) ∧ (1 : ℚ) / 2 ≤ 1 ∧
      ((⟨1, 2, .linearFunction 1 0⟩ : Ligament).computeForce
          ⟨1/2, 0, []⟩ [] []).bodyForces = [] ∧
      (⟨1, 2, .linearFunction 1 0⟩ : Ligament).getTension ⟨1/2, 0, []⟩ = 0 :=
  ⟨by norm_num, by norm_num,
    C1_slack_zero_force ⟨1, 2, .linearFunction 1 0⟩ ⟨1/2, 0, []⟩ [] []
      (by norm_num) (by norm_num)⟩

/-- Claim C2: with positive resting length, whenever the path length exceeds
the resting length the strain `(length - restingLength)/restingLength` is
non-negative and `getTension` equals the curve value at the strain times the
force-scale parameter. -/
theorem C2_taut_tension (lig : Ligament) (s : PathState)
    (hrest : 0 < lig.resting_length)
    (htaut : lig.resting_length < s.length) :
    0 ≤ (s.length - lig.resting_length) / lig.resting_length ∧
    lig.getTension s =
      lig.force_length_curve.calcValue
          ((s.length - lig.resting_length) / lig.resting_length) *
        lig.pcsa_force := by
  constructor
  · apply div_nonneg <;> linarith
  · simp [Ligament.getTension, if_neg (not_le.mpr htaut)]

/-- Witness for C2 at a concrete taut configuration. -/
theorem C2_taut_tension_witness :
    0 < (2 : ℚ) ∧ (2 : ℚ) < 3 ∧
      0 ≤ ((3 : ℚ) - 2) / 2 ∧
      (⟨2, 5, .linearFunction 4 1⟩ : Ligament).getTension ⟨3, 0, []⟩ =
        OSimFunction.calcValue (.linearFunction 4 1) (((3 : ℚ) - 2) / 2) * 5 :=
  ⟨by norm_num, by norm_num,
    C2_taut_tension ⟨2, 5, .linearFunction 4 1⟩ ⟨3, 0, []⟩
      (by norm_num) (by norm_num)⟩

/-- Claim C3 counterexample: after `setLinearStiffness(2, 2)` and at path
length 4 (which exceeds the rest length 2), the tension is 4, not
`K * (length - L0) / L0 = 2 * (4 - 2) / 2 = 2` as the claim states. -/
theorem C3_counterexample :
    (2 : ℚ) < 4 ∧
      (Ligament.setLinearStiffness ⟨0, 0, .linearFunction 0 0⟩ 2 2).getTension
          ⟨4, 0, []⟩ ≠ 2 * (4 - 2) / 2 := by
  constructor
  · norm_num
  · norm_num [Ligament.setLinearStiffness, Ligament.getTension,
      OSimFunction.calcValue]

/-- Claim C3 (amended): after `setLinearStiffness(K, L0)` with `L0 > 0`, for
every state whose path length exceeds `L0`, `getTension` equals
`K * (length - L0)` — the curve `LinearFunction(L0, 0)` evaluated at the
strain multiplies the normalization by `L0` back out. -/
theorem C3_linear_stiffness (lig : Ligament) (K L0 : ℚ) (s : PathState)
    (hL0 : 0 < L0) (hlen : L0 < s.length) :
    (lig.setLinearStiffness K L0).getTension s = K * (s.length - L0) := by
  have hne : L0 ≠ 0 := ne_of_gt hL0
  simp only [Ligament.setLinearStiffness, Ligament.getTension,
    OSimFunction.calcValue]
  rw [if_neg (not_le.mpr hlen)]
  field_simp
  ring

/-- Witness for the amended C3: stiffness 2, rest length 2, path length 4
gives tension `2 * (4 - 2) = 4`. -/
theorem C3_linear_stiffness_witness :
    0 < (2 : ℚ) ∧ (2 : ℚ) < 4 ∧
      (Ligament.setLinearStiffness ⟨0, 0, .linearFunction 0 0⟩ 2 2).getTension
          ⟨4, 0, []⟩ = 2 * (4 - 2) :=
  ⟨by norm_num, by norm_num,
    C3_linear_stiffness ⟨0, 0, .linearFunction 0 0⟩ 2 2 ⟨4, 0, []⟩
      (by norm_num) (by norm_num)⟩

/-- Claim C4: `postScale` multiplies the resting length by
`newLength / preScaleLength` and clears the scratch slot when the recorded
pre-scale length is positive, and leaves everything unchanged when the
pre-scale length is zero; in particular an unchanged path length leaves the
resting length unchanged and a doubled path length doubles it. -/
theorem C4_postScale (lig : Ligament) (s : PathState) :
    (0 < s.preScaleLength →
      (lig.postScale s).1.resting_length =
          lig.resting_length * (s.length / s.preScaleLength) ∧
        (lig.postScale s).2.preScaleLength = 0) ∧
    (s.preScaleLength = 0 → lig.postScale s = (lig, s)) ∧
    (0 < s.preScaleLength → s.length = s.preScaleLength →
      (lig.postScale s).1.resting_length = lig.resting_length) ∧
    (0 < s.preScaleLength → s.length = 2 * s.preScaleLength →
      (lig.postScale s).1.resting_length = 2 * lig.resting_length) := by
  refine ⟨fun hpre => ?_, fun hzero => ?_, fun hpre heq => ?_,
    fun hpre hdouble => ?_⟩
  · simp [Ligament.postScale, if_pos hpre]
  · simp [Ligament.postScale, hzero]
  · have hne : s.preScaleLength ≠ 0 := ne_of_gt hpre
    simp [Ligament.postScale, if_pos hpre, heq, div_self hne]
  · have hne : s.preScaleLength ≠ 0 := ne_of_gt hpre
    simp only [Ligament.postScale, if_pos hpre]
    rw [hdouble, mul_div_assoc, div_self hne]
    ring

/-- Witness for C4: with pre-scale length 3 and post-scale length 6 the
resting length 5 becomes 10 and the scratch slot is cleared. -/
theorem C4_postScale_witness :
    0 < (3 : ℚ) ∧
      ((⟨5, 0, .linearFunction 0 0⟩ : Ligament).postScale
          ⟨6, 3, []⟩).1.resting_length = 5 * (6 / 3) ∧
      ((⟨5, 0, .linearFunction 0 0⟩ : Ligament).postScale
          ⟨6, 3, []⟩).2.preScaleLength = 0 :=
  ⟨by norm_num,
    (C4_postScale ⟨5, 0, .linearFunction 0 0⟩ ⟨6, 3, []⟩).1 (by norm_num)⟩

/-- Claim C5: with no owning model, `connectToModel` performs only the
structural wiring (sub-component registration, generic connection step) and
returns without validating; with an owning model and a non-positive resting
length the validation fires fatally (and the owner is never set); with an
owning model and a positive resting length the connection completes. -/
theorem C5_connectToModel (restingLength : ℚ) :
    (Ligament.connectToModel restingLength false =
        [.includeSubComponent, .superConnect]) ∧
    (restingLength ≤ 0 →
      ConnectAction.assertFailure ∈ Ligament.connectToModel restingLength true ∧
        ConnectAction.setOwner ∉ Ligament.connectToModel restingLength true) ∧
    (0 < restingLength →
      Ligament.connectToModel restingLength true =
        [.includeSubComponent, .superConnect, .setOwner]) := by
  refine ⟨rfl, fun hle => ?_, fun hpos => ?_⟩
  · simp [Ligament.connectToModel, if_neg (not_lt.mpr hle)]
  · simp [Ligament.connectToModel, if_pos hpos]

/-- Witness for C5: a resting length of -1 with an owning model makes the
fatal validation fire and the owner is never set. -/
theorem C5_connectToModel_witness :
    (-1 : ℚ) ≤ 0 ∧
      (ConnectAction.assertFailure ∈ Ligament.connectToModel (-1) true ∧
        ConnectAction.setOwner ∉ Ligament.connectToModel (-1) true) :=
  ⟨by norm_num, (C5_connectToModel (-1)).2.1 (by norm_num)⟩

/-- Claim C6: the reporter records exactly when the state-scoped disabled
flag is false and the interval is the "every step" sentinel (negative or
NaN) or at least the interval has elapsed since the last recorded time; a
positive decision appends exactly one row `(currentTime, values)` and sets
`lastReportTime = currentTime`; the spec's trace with interval 1 over times
0, 0.4, 0.9, 1, 1.5, 2.1 records rows at 0, 1 and 2.1. -/
theorem C6_reporter_gating (interval : ReportInterval) (values : List ℚ)
    (rs : ReporterState) (t : ℚ) :
    (shouldReport interval rs t = true ↔
      rs.disabled = false ∧
        (interval = .nan ∨ (∃ q, interval = .val q ∧ q < 0) ∨
          ∃ q, interval = .val q ∧
            ∀ l, rs.lastReportTime = some l → q ≤ t - l)) ∧
    (shouldReport interval rs t = true →
      Reporter.report interval values rs t =
        { rs with
            table := rs.table ++ [(t, values)]
            lastReportTime := some t }) ∧
    (shouldReport interval rs t = false →
      Reporter.report interval values rs t = rs) ∧
    (Reporter.reportTrace (.val 1) [] ⟨false, none, []⟩
        [0, 4/10, 9/10, 1, 15/10, 21/10]).table =
      [(0, []), (1, []), (21/10, [])] := by
  refine ⟨?_, fun h => by simp [Reporter.report, h],
    fun h => by simp [Reporter.report, h],
    by norm_num [Reporter.reportTrace, Reporter.report, shouldReport]⟩
  unfold shouldReport
  cases interval with
  | nan => cases hd : rs.disabled <;> simp [hd]
  | val q =>
    cases hd : rs.disabled with
    | true => simp [hd]
    | false =>
      cases hl : rs.lastReportTime with
      | none => simp [hd, hl]
      | some l => simp [hd, hl, or_comm]

/-- Witness for C6: with interval 1, last report at time 0 and a candidate
event at time 2, the gate is open and exactly one row is appended. -/
theorem C6_reporter_gating_witness :
    shouldReport (.val 1) ⟨false, some 0, []⟩ 2 = true ∧
      Reporter.report (.val 1) [] ⟨false, some 0, []⟩ 2 =
        ⟨false, some 2, [(2, [])]⟩ := by
  have hgate : shouldReport (.val 1) ⟨false, some 0, []⟩ 2 = true := by
    norm_num [shouldReport]
  refine ⟨hgate, ?_⟩
  have h := (C6_reporter_gating (.val 1) [] ⟨false, some 0, []⟩ 2).2.1 hgate
  simpa using h

/-- Claim C7: the body forces `computeForce` accumulates are exactly one
entry per path-decomposition element scaled by the scalar `getTension`
returns — slack states contribute nothing, matching `getTension = 0`. -/
theorem C7_computeForce_refines_tension (lig : Ligament) (s : PathState)
    (bf : List AppliedPointForce) (gf : List ℚ) :
    (lig.computeForce s bf gf).bodyForces =
      if s.length ≤ lig.resting_length then bf
      else
        bf ++ s.pfds.map (fun p =>
          ⟨p.body, p.point, scaleVec (lig.getTension s) p.direction⟩) := by
  by_cases h : s.length ≤ lig.resting_length
  · simp [Ligament.computeForce, if_pos h]
  · simp only [Ligament.computeForce, Ligament.getTension, if_neg h]
    exact foldl_applyForceToPoint s.pfds _ bf

/-- Claim C8: `computeForce` leaves the generalized-forces parameter
untouched and only ever appends to the caller's body-force accumulator; it
is a pure function of the element and the state, so the state and the
element's configuration are unchanged by construction. -/
theorem C8_computeForce_frame (lig : Ligament) (s : PathState)
    (bf : List AppliedPointForce) (gf : List ℚ) :
    (lig.computeForce s bf gf).generalizedForces = gf ∧
      ∃ additions, (lig.computeForce s bf gf).bodyForces = bf ++ additions := by
  by_cases h : s.length ≤ lig.resting_length
  · refine ⟨by simp [Ligament.computeForce, if_pos h], [], ?_⟩
    simp [Ligament.computeForce, if_pos h]
  · refine ⟨by simp [Ligament.computeForce, if_neg h], ?_, ?_⟩
    · exact s.pfds.map (fun p =>
        ⟨p.body, p.point,
          scaleVec
            (lig.force_length_curve.calcValue
                ((s.length - lig.resting_length) / lig.resting_length) *
              lig.pcsa_force)
            p.direction⟩)
    · simp only [Ligament.computeForce, if_neg h]
      exact foldl_applyForceToPoint s.pfds _ bf

/-- Successive slopes of a polyline given by abscissae and ordinates. -/
def consecutiveSlopes (xs ys : List ℚ) : List ℚ :=
  List.zipWith (fun a b => (b.2 - a.2) / (b.1 - a.1))
    (xs.zip ys) ((xs.zip ys).drop 1)

/-- Claim C9: the default-constructed element's force-length curve is the
`SimmSpline` over the fixed 13-point table whose shape is: zero ordinate at
every control point with abscissa at most the positive threshold 1, a
strictly positive, monotone, discretely convex rise beyond it, and a capped
constant tail of ordinate 2 at high strain. -/
theorem C9_default_curve (splineEval : ℚ → ℚ) :
    (Ligament.constructProperties splineEval).force_length_curve =
      .simmSpline ⟨forceLengthCurveX, forceLengthCurveY⟩ splineEval ∧
    forceLengthCurveX.length = 13 ∧
    forceLengthCurveY.length = 13 ∧
    List.Chain' (· < ·) forceLengthCurveX ∧
    List.Chain' (· ≤ ·) forceLengthCurveY ∧
    (∀ p ∈ forceLengthCurveX.zip forceLengthCurveY, p.1 ≤ 1 → p.2 = 0) ∧
    (∀ p ∈ forceLengthCurveX.zip forceLengthCurveY, 1 < p.1 → 0 < p.2) ∧
    List.Chain' (· < ·)
      (consecutiveSlopes ((forceLengthCurveX.drop 3).take 7)
        ((forceLengthCurveY.drop 3).take 7)) ∧
    forceLengthCurveY.drop 9 = [2, 2, 2, 2] ∧
    (∀ yv ∈ forceLengthCurveY, yv ≤ 2) := by
  refine ⟨rfl, ?_⟩
  norm_num [forceLengthCurveX, forceLengthCurveY, consecutiveSlopes,
    List.chain'_cons, List.chain'_singleton, List.zip_cons_cons,
    List.zipWith_cons_cons, List.forall_mem_cons]

/-- The strain division `(length - restingLength) / restingLength` in
`computeForce` and `getTension` executes exactly when the slack guard
`length <= restingLength` fails. -/
def Ligament.strainDivisionReached (lig : Ligament) (s : PathState) : Prop :=
  ¬ (s.length ≤ lig.resting_length)

/-- The divisor of the strain division in `computeForce` and `getTension`. -/
def Ligament.strainDivisor (lig : Ligament) : ℚ :=
  lig.resting_length

/-- Claim C10: a default-constructed element has `resting_length = 0` and
`pcsa_force = 0`, and for any positive path length the slack guard does not
return early, so both `getTension` and `computeForce` reach the strain
division whose divisor is the zero resting length. -/
theorem C10_default_division_by_zero (splineEval : ℚ → ℚ) (len : ℚ)
    (hlen : 0 < len) :
    (Ligament.constructProperties splineEval).resting_length = 0 ∧
    (Ligament.constructProperties splineEval).pcsa_force = 0 ∧
    Ligament.strainDivisionReached (Ligament.constructProperties splineEval)
      ⟨len, 0, []⟩ ∧
    Ligament.strainDivisor (Ligament.constructProperties splineEval) = 0 := by
  refine ⟨rfl, rfl, ?_, rfl⟩
  simp only [Ligament.strainDivisionReached, Ligament.constructProperties,
    not_le]
  exact hlen

/-- Witness for C10 at path length 1. -/
theorem C10_default_division_by_zero_witness :
    0 < (1 : ℚ) ∧
      ((Ligament.constructProperties (fun _ => 0)).resting_length = 0 ∧
        (Ligament.constructProperties (fun _ => 0)).pcsa_force = 0 ∧
        Ligament.strainDivisionReached
          (Ligament.constructProperties (fun _ => 0)) ⟨1, 0, []⟩ ∧
        Ligament.strainDivisor (Ligament.constructProperties (fun _ => 0)) = 0) :=
  ⟨by norm_num, C10_default_division_by_zero (fun _ => 0) 1 (by norm_num)⟩

end OpenSimCore
